import Mathlib

/-!
Shallow embedding of the AI emergency response notebook
(kubilaykoccc/ai-emergency-response-system) and proofs about its
decision-fusion pipeline: the rule layer of Cell 5, the camera sampler of
Cell 3, the alert composer of Cell 4 and the monitor loop of Cell 6.

Numeric vitals are modelled as rationals; wall-clock time is modelled by an
oracle giving the elapsed time observed at each clock check; the video
device is modelled by the sequence of frames its reads return, with a
missing frame (the device failed to open or to deliver) modelled as none,
on which the grayscale conversion raises, exactly as cv2.cvtColor does on
None.
-/

namespace EmergencyMonitor

/-- A row of the simulated telemetry frame after Cell 1: the raw vitals plus
the columns added once the isolation forest is fitted (risk_label from
fit_predict, risk_score from decision_function). -/
structure Row where
  timestamp : Nat
  heart_rate : ℚ
  oxygen_saturation : ℚ
  glucose : ℚ
  risk_label : Int
  risk_score : ℚ
deriving DecidableEq

/-- Cell 5: hard clinical thresholds, heart rate above 120 or oxygen
saturation below 85. -/
def DeathEvaluateEmergencyRow (row : Row) : Bool :=
  decide (mkRat 120 1 < row.heart_rate) || decide (row.oxygen_saturation < mkRat 85 1)

/-- Cell 5: a row is at risk when the model labelled it -1 or the clinical
thresholds fire. -/
def RiskEvaluation (row : Row) : Bool :=
  decide (row.risk_label = -1) || DeathEvaluateEmergencyRow row

/-- Cell 5: the stricter legacy camera-based policy. It is defined by the
source but never consulted by the Cell 6 loop. -/
def CorrectedBasedCameraResult (motion_flag face_flag risk_flag : Bool) : Bool :=
  risk_flag && motion_flag && !face_flag

/-- Cell 5: the final decision function is the identity on the decision flag. -/
def FinalDecisionLogic (decision_flag : Bool) : Bool :=
  decision_flag

/-- A grayscale frame: a list of pixel intensities. -/
abbrev Gray := List Nat

/-- Mean absolute pixel difference of two frames, as computed by
cv2.absdiff followed by mean. -/
def meanAbsDiff (a b : Gray) : ℚ :=
  let d : List Nat := List.zipWith (fun x y => max x y - min x y) a b
  (d.sum : ℚ) / (d.length : ℚ)

/-- A presence detector (a Haar cascade): whether detectMultiScale returns at
least one region on the given frame. -/
abbrev Detector := Gray → Bool

/-- The failure raised inside check_camera_flags when a read returns no
frame: cv2.cvtColor applied to None raises an exception. -/
inductive CamErr
  | deviceUnavailable
deriving DecidableEq

/-- One read observed by the sampling while-loop: the elapsed time since
start seen at the loop-condition check, and the frame the read returned
(none when the device failed to open or delivers nothing). -/
abbrev CamRead := ℚ × Option Gray

/-- The while-loop of check_camera_flags: as long as the elapsed time is
below the duration, read a frame, accumulate the sticky motion flag from the
mean absolute difference against the previous frame and the sticky face flag
from the cascades, and carry the current frame forward as the new baseline. -/
def camSampleLoop (duration thr : ℚ) (cascades : List Detector) :
    Gray → Bool → Bool → List CamRead → Except CamErr (Bool × Bool)
  | _, motion_detected, face_detected, [] => .ok (motion_detected, face_detected)
  | prev_gray, motion_detected, face_detected, (t, fr) :: rest =>
    if t < duration then
      match fr with
      | none => .error .deviceUnavailable
      | some gray =>
        camSampleLoop duration thr cascades gray
          (motion_detected || decide (thr < meanAbsDiff prev_gray gray))
          (face_detected || cascades.any (fun c => c gray))
          rest
    else .ok (motion_detected, face_detected)

/-- Cell 3: check_camera_flags. It converts the first read frame to
grayscale as the baseline (raising when that frame is absent) and then runs
the timed sampling loop; it returns the pair of sticky flags. -/
def check_camera_flags (duration thr : ℚ) (cascades : List Detector)
    (firstFrame : Option Gray) (stream : List CamRead) :
    Except CamErr (Bool × Bool) :=
  match firstFrame with
  | none => .error .deviceUnavailable
  | some g0 => camSampleLoop duration thr cascades g0 false false stream

/-- Round q times s to the nearest integer, ties to even, matching the
rounding Python applies when formatting a value with a fixed precision: the
scaled value is N / D with N the numerator times s and D the (positive)
denominator, its floor is the flooring division of N by D, and the remainder
decides whether to round up, down, or to the even neighbour. -/
def roundHalfEvenScaled (q : ℚ) (s : Nat) : Int :=
  let N := q.num * (s : Int)
  let D : Int := (q.den : Int)
  let f := N.fdiv D
  let r := N - f * D
  if D < 2 * r then f + 1
  else if 2 * r < D then f
  else if f % 2 = 0 then f else f + 1

/-- The prec digits after the decimal point of a natural number m, most
significant first, zero padded to exactly prec characters. -/
def fracDigits : Nat → Nat → List Char
  | 0, _ => []
  | n + 1, m => fracDigits n (m / 10) ++ [Nat.digitChar (m % 10)]

/-- Fixed-precision rendering of a rational, the semantics of the Python
format specifier .1f or .3f: scale by ten to the precision, round half to
even, and print sign, integer part, a point and exactly prec fractional
digits. -/
def fmtFixed (prec : Nat) (q : ℚ) : String :=
  let r := roundHalfEvenScaled q (10 ^ prec)
  let m := r.natAbs
  (if r < 0 then "-" else "") ++ toString (m / 10 ^ prec) ++ "." ++
    String.mk (fracDigits prec (m % 10 ^ prec))

/-- Cell 4: generate_alert_message, the f-string template rendering heart
rate, oxygen saturation and glucose at one decimal, the risk score at three
decimals, and the fixed closing call-to-action line. -/
def generate_alert_message (row : Row) : String :=
  "⚠️ Emergency Alert! Measurements:\n- Heart Rate: " ++ fmtFixed 1 row.heart_rate ++
    " bpm\n- O₂ Saturation: " ++ fmtFixed 1 row.oxygen_saturation ++
    "%\n- Glucose: " ++ fmtFixed 1 row.glucose ++
    " mg/dL\nRisk Score: " ++ fmtFixed 3 row.risk_score ++
    "\nPlease check immediately!"

/-- The per-row outcome recorded by the Cell 6 loop, following the Decision
record of the design: the positional index and row it refers to, the risk
flag from RiskEvaluation, the camera sample when one was taken, the final
decision flag, and the alert_message value written back into the frame. -/
structure Decision where
  idx : Nat
  row : Row
  risk_flag : Bool
  camera_sample : Option (Bool × Bool)
  decision_flag : Bool
  alert_message : String
deriving DecidableEq

/-- How a run of the Cell 6 loop ends: the stream is exhausted, the
wall-clock budget check fires, or an exception raised while processing the
reading at the given index propagates out of the loop. -/
inductive LoopExit
  | completed
  | timedOut
  | aborted (idx : Nat) (e : CamErr)
deriving DecidableEq

/-- A finished run: the ordered decision log, the ordered list of reading
indices at which check_camera_flags was invoked, and how the run ended. -/
structure LoopResult where
  decisions : List Decision
  camTrace : List Nat
  exit : LoopExit
deriving DecidableEq

/-- What one invocation of check_camera_flags observes from the device: the
frame of the initial baseline read, and the subsequent timed reads. -/
abbrev CamInput := Option Gray × List CamRead

/-- Cell 6, the body of the for-loop over the frame rows. The clock oracle
elapsed gives the wall-clock time since start observed at the deadline check
before row i; camEnv gives what the k-th camera invocation observes. Per
row: break when the elapsed time exceeds max_duration; otherwise evaluate
the risk rule; a normal row records No alert needed and continues; an
at-risk row samples the camera with duration 5 and threshold 10 and, since
decision_flag is the literal True and FinalDecisionLogic is the identity,
records the generated alert message. An exception from the camera call ends
the run, as the loop has no handler. -/
def monitorLoopGo (maxd : ℚ) (elapsed : Nat → ℚ) (camEnv : Nat → CamInput)
    (dets : List Detector) :
    Nat → Nat → List Decision → List Nat → List Row → LoopResult
  | _, _, ds, tr, [] => ⟨ds, tr, .completed⟩
  | i, k, ds, tr, row :: rest =>
    if maxd < elapsed i then ⟨ds, tr, .timedOut⟩
    else if RiskEvaluation row then
      match check_camera_flags (mkRat 5 1) (mkRat 10 1) dets (camEnv k).1 (camEnv k).2 with
      | .error e => ⟨ds, tr ++ [i], .aborted i e⟩
      | .ok (motion_flag, face_flag) =>
        let decision_flag := true
        if FinalDecisionLogic decision_flag then
          monitorLoopGo maxd elapsed camEnv dets (i + 1) (k + 1)
            (ds ++ [⟨i, row, true, some (motion_flag, face_flag), decision_flag,
              generate_alert_message row⟩])
            (tr ++ [i]) rest
        else
          monitorLoopGo maxd elapsed camEnv dets (i + 1) (k + 1)
            (ds ++ [⟨i, row, true, some (motion_flag, face_flag), decision_flag,
              "No alert needed"⟩])
            (tr ++ [i]) rest
    else
      monitorLoopGo maxd elapsed camEnv dets (i + 1) k
        (ds ++ [⟨i, row, false, none, false, "No alert needed"⟩]) tr rest

/-- Cell 6: the whole monitoring run over the row stream, starting with an
empty decision log and camera trace at index zero. -/
def monitorLoop (maxd : ℚ) (elapsed : Nat → ℚ) (camEnv : Nat → CamInput)
    (dets : List Detector) (rows : List Row) : LoopResult :=
  monitorLoopGo maxd elapsed camEnv dets 0 0 [] [] rows

/-- A default row, only used as the fallback value of list indexing. -/
def row0 : Row :=
  ⟨0, mkRat 0 1, mkRat 0 1, mkRat 0 1, 0, mkRat 0 1⟩

/-- The invariant the induction over the row stream yields for a run of the
loop body started at reading index i with accumulated log ds and trace tr:
the run appends newDs and newTr, the appended decisions are the initial
rows in order, each decision satisfies the per-row facts, the appended
camera trace is disciplined, and the exit state describes how many rows
were decided. -/
structure GoInv (res : LoopResult) (i : Nat) (ds : List Decision) (tr : List Nat)
    (rows : List Row) (newDs : List Decision) (newTr : List Nat) : Prop where
  decsEq : res.decisions = ds ++ newDs
  traceEq : res.camTrace = tr ++ newTr
  rowsEq : newDs.map Decision.row = rows.take newDs.length
  lenLe : newDs.length ≤ rows.length
  idxGe : ∀ d ∈ newDs, i ≤ d.idx
  decOk : ∀ d ∈ newDs,
    d.risk_flag = RiskEvaluation d.row ∧ d.decision_flag = d.risk_flag ∧
      (d.risk_flag = false → d.camera_sample = none ∧ d.alert_message = "No alert needed") ∧
      (d.risk_flag = true → (∃ mf, d.camera_sample = some mf) ∧
        d.alert_message = generate_alert_message d.row)
  trGe : ∀ j ∈ newTr, i ≤ j
  trRisk : ∀ j ∈ newTr, j - i < rows.length ∧ RiskEvaluation (rows.getD (j - i) row0) = true
  trNodup : newTr.Nodup
  countOk : ∀ d ∈ newDs, newTr.count d.idx = if d.risk_flag then 1 else 0
  completedAll : res.exit = LoopExit.completed → newDs.length = rows.length
  abortedAt : ∀ j e, res.exit = LoopExit.aborted j e →
    j = i + newDs.length ∧ newDs.length < rows.length

def rowC1 : Row := ⟨0, mkRat 75 1, mkRat 97 1, mkRat 100 1, 1, mkRat 0 1⟩

def runC1 : LoopResult :=
  monitorLoop (mkRat 60 1) (fun _ => mkRat 0 1) (fun _ => (none, [])) [] [rowC1]

def decC1 : Decision := ⟨0, rowC1, false, none, false, "No alert needed"⟩

def rowC3 : Row := ⟨0, mkRat 80 1, mkRat 98 1, mkRat 95 1, 1, mkRat 0 1⟩

def runC3 : LoopResult :=
  monitorLoop (mkRat 60 1) (fun _ => mkRat 0 1) (fun _ => (none, [])) [] [rowC3]

def decC3 : Decision := ⟨0, rowC3, false, none, false, "No alert needed"⟩

def rowC4 : Row := ⟨0, mkRat 130 1, mkRat 97 1, mkRat 100 1, 1, mkRat 0 1⟩

def rowC5a : Row := ⟨0, mkRat 70 1, mkRat 80 1, mkRat 100 1, 1, mkRat 0 1⟩

def rowC5b : Row := ⟨1, mkRat 75 1, mkRat 97 1, mkRat 100 1, 1, mkRat 0 1⟩

def rowC7 : Row := ⟨0, mkRat 75 1, mkRat 97 1, mkRat 100 1, 1, mkRat 0 1⟩

def rowC8 : Row := ⟨0, mkRat 76 1, mkRat 96 1, mkRat 101 1, -1, mkRat 0 1⟩

def runC8 : LoopResult :=
  monitorLoop (mkRat 60 1) (fun _ => mkRat 0 1) (fun _ => (some [], [])) [] [rowC8]

def rowC9 : Row :=
  ⟨3, mkRat 8261514928204012 100000000000000, mkRat 9971127571760991 100000000000000,
    mkRat 10543298029036389 100000000000000, -1, mkRat (-32369435699464155) 10000000000000000000⟩

example : fmtFixed 1 (mkRat 825 10) = "82.5" := by decide

example : fmtFixed 1 (mkRat 8261514928204012 100000000000000) = "82.6" := by decide

example : fmtFixed 3 (mkRat (-32369435699464155) 10000000000000000000) = "-0.003" := by decide

example : fmtFixed 1 (mkRat 75 1) = "75.0" := by decide

example : fmtFixed 3 (mkRat 0 1) = "0.000" := by decide

/-- Master lemma: every run of the loop body satisfies GoInv for some list
of appended decisions and camera invocations. -/
theorem monitorLoopGo_spec (maxd : ℚ) (elapsed : Nat → ℚ) (camEnv : Nat → CamInput)
    (dets : List Detector) :
    ∀ (rows : List Row) (i k : Nat) (ds : List Decision) (tr : List Nat),
    ∃ newDs newTr,
      GoInv (monitorLoopGo maxd elapsed camEnv dets i k ds tr rows) i ds tr rows newDs newTr := by
  intro rows
  induction rows with
  | nil =>
    intro i k ds tr
    refine ⟨[], [], ?_⟩
    have hres : monitorLoopGo maxd elapsed camEnv dets i k ds tr [] = ⟨ds, tr, .completed⟩ := by
      simp [monitorLoopGo]
    exact {
      decsEq := by simp [hres]
      traceEq := by simp [hres]
      rowsEq := by simp
      lenLe := by simp
      idxGe := by simp
      decOk := by simp
      trGe := by simp
      trRisk := by simp
      trNodup := by simp
      countOk := by simp
      completedAll := by simp [hres]
      abortedAt := by simp [hres] }
  | cons row rest ih =>
    intro i k ds tr
    by_cases hT : maxd < elapsed i
    · refine ⟨[], [], ?_⟩
      have hres : monitorLoopGo maxd elapsed camEnv dets i k ds tr (row :: rest) =
          ⟨ds, tr, .timedOut⟩ := by
        simp [monitorLoopGo, hT]
      exact {
        decsEq := by simp [hres]
        traceEq := by simp [hres]
        rowsEq := by simp
        lenLe := by simp
        idxGe := by simp
        decOk := by simp
        trGe := by simp
        trRisk := by simp
        trNodup := by simp
        countOk := by simp
        completedAll := by simp [hres]
        abortedAt := by simp [hres] }
    · by_cases hR : RiskEvaluation row = true
      · rcases hE : check_camera_flags (mkRat 5 1) (mkRat 10 1) dets (camEnv k).1 (camEnv k).2
          with ⟨e⟩ | ⟨m, f⟩
        · refine ⟨[], [i], ?_⟩
          have hres : monitorLoopGo maxd elapsed camEnv dets i k ds tr (row :: rest) =
              ⟨ds, tr ++ [i], .aborted i e⟩ := by
            simp only [monitorLoopGo]
            rw [if_neg hT, if_pos hR, hE]
          exact {
            decsEq := by simp [hres]
            traceEq := by simp [hres]
            rowsEq := by simp
            lenLe := by simp
            idxGe := by simp
            decOk := by simp
            trGe := by intro j hj; simp at hj; omega
            trRisk := by intro j hj; simp at hj; subst hj; simpa using hR
            trNodup := by simp
            countOk := by simp
            completedAll := by simp [hres]
            abortedAt := by
              intro j e' hj
              simp [hres] at hj
              obtain ⟨h1, h2⟩ := hj
              exact ⟨by simp, by simp⟩ }
        · set decR : Decision :=
            ⟨i, row, true, some (m, f), true, generate_alert_message row⟩ with hdecR
          have hres : monitorLoopGo maxd elapsed camEnv dets i k ds tr (row :: rest) =
              monitorLoopGo maxd elapsed camEnv dets (i + 1) (k + 1)
                (ds ++ [decR]) (tr ++ [i]) rest := by
            simp only [monitorLoopGo]
            rw [if_neg hT, if_pos hR, hE]
            rfl
          obtain ⟨nd, nt, inv⟩ := ih (i + 1) (k + 1) (ds ++ [decR]) (tr ++ [i])
          have hnotin : i ∉ nt := fun h => by have := inv.trGe i h; omega
          refine ⟨decR :: nd, i :: nt, ?_⟩
          exact {
            decsEq := by rw [hres, inv.decsEq]; simp
            traceEq := by rw [hres, inv.traceEq]; simp
            rowsEq := by
              have := inv.rowsEq
              simp only [List.map_cons, List.length_cons, List.take_succ_cons, this, hdecR]
            lenLe := by
              have := inv.lenLe
              simp only [List.length_cons]
              omega
            idxGe := by
              intro d hd
              rcases List.mem_cons.mp hd with h | h
              · subst h; simp [hdecR]
              · have := inv.idxGe d h; omega
            decOk := by
              intro d hd
              rcases List.mem_cons.mp hd with h | h
              · subst h
                refine ⟨by simp [hdecR, hR], by simp [hdecR], by simp [hdecR], ?_⟩
                intro _
                exact ⟨⟨(m, f), by simp [hdecR]⟩, by simp [hdecR]⟩
              · exact inv.decOk d h
            trGe := by
              intro j hj
              rcases List.mem_cons.mp hj with h | h
              · omega
              · have := inv.trGe j h; omega
            trRisk := by
              intro j hj
              rcases List.mem_cons.mp hj with h | h
              · subst h
                simpa using hR
              · obtain ⟨hlt, hrisk⟩ := inv.trRisk j h
                have hge := inv.trGe j h
                have hji : j - i = (j - (i + 1)) + 1 := by omega
                rw [hji]
                constructor
                · simp; omega
                · simpa using hrisk
            trNodup := List.nodup_cons.mpr ⟨hnotin, inv.trNodup⟩
            countOk := by
              intro d hd
              rcases List.mem_cons.mp hd with h | h
              · subst h
                have hz : nt.count decR.idx = 0 := by
                  rw [List.count_eq_zero]
                  simpa [hdecR] using hnotin
                simp [hdecR, List.count_cons_self, hz]
              · have hne : d.idx ≠ i := by have := inv.idxGe d h; omega
                rw [List.count_cons_of_ne hne, inv.countOk d h]
            completedAll := by
              rw [hres]
              intro hc
              have := inv.completedAll hc
              simp only [List.length_cons]
              omega
            abortedAt := by
              rw [hres]
              intro j e hj
              obtain ⟨h1, h2⟩ := inv.abortedAt j e hj
              constructor
              · simp only [List.length_cons]; omega
              · simp only [List.length_cons]; omega }
      · set decN : Decision := ⟨i, row, false, none, false, "No alert needed"⟩ with hdecN
        have hres : monitorLoopGo maxd elapsed camEnv dets i k ds tr (row :: rest) =
            monitorLoopGo maxd elapsed camEnv dets (i + 1) k (ds ++ [decN]) tr rest := by
          simp only [monitorLoopGo]
          rw [if_neg hT, if_neg hR]
        obtain ⟨nd, nt, inv⟩ := ih (i + 1) k (ds ++ [decN]) tr
        have hnotin : i ∉ nt := fun h => by have := inv.trGe i h; omega
        refine ⟨decN :: nd, nt, ?_⟩
        exact {
          decsEq := by rw [hres, inv.decsEq]; simp
          traceEq := by rw [hres, inv.traceEq]
          rowsEq := by
            have := inv.rowsEq
            simp only [List.map_cons, List.length_cons, List.take_succ_cons, this, hdecN]
          lenLe := by
            have := inv.lenLe
            simp only [List.length_cons]
            omega
          idxGe := by
            intro d hd
            rcases List.mem_cons.mp hd with h | h
            · subst h; simp [hdecN]
            · have := inv.idxGe d h; omega
          decOk := by
            intro d hd
            rcases List.mem_cons.mp hd with h | h
            · subst h
              refine ⟨?_, by simp [hdecN], by simp [hdecN], by simp [hdecN]⟩
              simp only [hdecN]
              simp [Bool.not_eq_true] at hR
              exact hR.symm
            · exact inv.decOk d h
          trGe := by
            intro j hj
            have := inv.trGe j hj; omega
          trRisk := by
            intro j hj
            obtain ⟨hlt, hrisk⟩ := inv.trRisk j hj
            have hge := inv.trGe j hj
            have hji : j - i = (j - (i + 1)) + 1 := by omega
            rw [hji]
            constructor
            · simp; omega
            · simpa using hrisk
          trNodup := inv.trNodup
          countOk := by
            intro d hd
            rcases List.mem_cons.mp hd with h | h
            · subst h
              have hz : nt.count decN.idx = 0 := by
                rw [List.count_eq_zero]
                simpa [hdecN] using hnotin
              simp [hdecN, hz]
            · exact inv.countOk d h
          completedAll := by
            rw [hres]
            intro hc
            have := inv.completedAll hc
            simp only [List.length_cons]
            omega
          abortedAt := by
            rw [hres]
            intro j e hj
            obtain ⟨h1, h2⟩ := inv.abortedAt j e hj
            constructor
            · simp only [List.length_cons]; omega
            · simp only [List.length_cons]; omega }

/-- Top-level form of the master lemma for whole runs: the decision log and
the camera trace of a run are the appended lists of some GoInv instance
rooted at index zero. -/
theorem monitorLoop_spec (maxd : ℚ) (elapsed : Nat → ℚ) (camEnv : Nat → CamInput)
    (dets : List Detector) (rows : List Row) :
    ∃ nd nt,
      (monitorLoop maxd elapsed camEnv dets rows).decisions = nd ∧
        (monitorLoop maxd elapsed camEnv dets rows).camTrace = nt ∧
        GoInv (monitorLoopGo maxd elapsed camEnv dets 0 0 [] [] rows) 0 [] [] rows nd nt := by
  obtain ⟨nd, nt, inv⟩ := monitorLoopGo_spec maxd elapsed camEnv dets rows 0 0 [] []
  refine ⟨nd, nt, ?_, ?_, inv⟩
  · rw [monitorLoop, inv.decsEq]; simp
  · rw [monitorLoop, inv.traceEq]; simp

/-- Length of the digit list produced for the fractional part. -/
theorem fracDigits_length : ∀ (n m : Nat), (fracDigits n m).length = n := by
  intro n
  induction n with
  | zero => intro m; rfl
  | succ n ih => intro m; simp [fracDigits, ih]

/-- Every digit character of a value below ten is a decimal digit. -/
theorem digitChar_isDigit (d : Nat) (h : d < 10) : (Nat.digitChar d).isDigit = true := by
  interval_cases d <;> decide

/-- Every character of the rendered fractional part is a decimal digit. -/
theorem fracDigits_all_digits : ∀ (n m : Nat), (fracDigits n m).all Char.isDigit = true := by
  intro n
  induction n with
  | zero => intro m; rfl
  | succ n ih =>
    intro m
    simp only [fracDigits, List.all_append, ih, Bool.true_and, List.all_cons, List.all_nil,
      Bool.and_true]
    exact digitChar_isDigit _ (Nat.mod_lt _ (by omega))

/-- The composed alert message is never the empty string. -/
theorem generate_alert_message_ne_empty (row : Row) : generate_alert_message row ≠ "" := by
  intro h
  have hl := congrArg String.length h
  simp only [generate_alert_message, String.length_append] at hl
  have h1 : 0 < ("⚠️ Emergency Alert! Measurements:\n- Heart Rate: " : String).length := by decide
  have h0 : ("" : String).length = 0 := by decide
  omega

/-- C1: for every Reading processed by the loop, the recorded decision flag
equals the risk flag, the risk flag is the risk rule of the row itself, and
when the risk flag is false no camera sample is recorded and the camera is
never invoked for that reading; camera evidence never changes the decision. -/
theorem decision_flag_eq_risk_flag (maxd : ℚ) (elapsed : Nat → ℚ) (camEnv : Nat → CamInput)
    (dets : List Detector) (rows : List Row) (d : Decision)
    (hd : d ∈ (monitorLoop maxd elapsed camEnv dets rows).decisions) :
    d.decision_flag = d.risk_flag ∧ d.risk_flag = RiskEvaluation d.row ∧
      (d.risk_flag = false →
        d.camera_sample = none ∧
          (monitorLoop maxd elapsed camEnv dets rows).camTrace.count d.idx = 0) := by
  obtain ⟨nd, nt, hdec, htr, inv⟩ := monitorLoop_spec maxd elapsed camEnv dets rows
  rw [hdec] at hd
  obtain ⟨h1, h2, h3, _⟩ := inv.decOk d hd
  refine ⟨h2, h1, fun hf => ⟨(h3 hf).1, ?_⟩⟩
  rw [htr, inv.countOk d hd, hf]
  simp

/-- Witness for C1: a concrete normal reading is decided with decision flag
equal to risk flag, no camera sample and no camera invocation. -/
theorem decision_flag_eq_risk_flag_witness :
    decC1 ∈ runC1.decisions ∧ decC1.decision_flag = decC1.risk_flag ∧
      decC1.camera_sample = none ∧ runC1.camTrace.count decC1.idx = 0 := by
  have hmem : decC1 ∈ runC1.decisions := by decide
  have h := decision_flag_eq_risk_flag (mkRat 60 1) (fun _ => mkRat 0 1)
    (fun _ => (none, [])) [] [rowC1] decC1 hmem
  exact ⟨hmem, h.1, (h.2.2 (by decide)).1, (h.2.2 (by decide)).2⟩

/-- C2: the risk flag is true exactly when the model label is -1 or the
heart rate exceeds 120 or the oxygen saturation is below 85; either signal
alone is sufficient, and the rule is a total function of the single row. -/
theorem riskEvaluation_iff (row : Row) :
    RiskEvaluation row = true ↔
      (row.risk_label = -1 ∨ 120 < row.heart_rate ∨ row.oxygen_saturation < 85) := by
  have h120 : (mkRat 120 1 : ℚ) = 120 := by norm_num [Rat.mkRat_eq_div]
  have h85 : (mkRat 85 1 : ℚ) = 85 := by norm_num [Rat.mkRat_eq_div]
  simp [RiskEvaluation, DeathEvaluateEmergencyRow, h120, h85, Bool.or_eq_true,
    decide_eq_true_iff, or_assoc]

/-- C3: on every recorded Decision, a true decision flag comes with the
composed, non-empty alert payload for its own row, and a false decision
flag comes with the exact string No alert needed. -/
theorem alert_message_invariant (maxd : ℚ) (elapsed : Nat → ℚ) (camEnv : Nat → CamInput)
    (dets : List Detector) (rows : List Row) (d : Decision)
    (hd : d ∈ (monitorLoop maxd elapsed camEnv dets rows).decisions) :
    (d.decision_flag = true →
      d.alert_message = generate_alert_message d.row ∧ d.alert_message ≠ "") ∧
      (d.decision_flag = false → d.alert_message = "No alert needed") := by
  obtain ⟨nd, nt, hdec, htr, inv⟩ := monitorLoop_spec maxd elapsed camEnv dets rows
  rw [hdec] at hd
  obtain ⟨h1, h2, h3, h4⟩ := inv.decOk d hd
  constructor
  · intro ht
    have hr : d.risk_flag = true := by rw [← h2, ht]
    have := (h4 hr).2
    exact ⟨this, by rw [this]; exact generate_alert_message_ne_empty d.row⟩
  · intro hf
    have hr : d.risk_flag = false := by rw [← h2, hf]
    exact (h3 hr).2

/-- Witness for C3: a concrete recorded Decision with a false decision flag
carries exactly the string No alert needed. -/
theorem alert_message_invariant_witness :
    decC3 ∈ runC3.decisions ∧ decC3.decision_flag = false ∧
      decC3.alert_message = "No alert needed" := by
  have hmem : decC3 ∈ runC3.decisions := by decide
  have h := alert_message_invariant (mkRat 60 1) (fun _ => mkRat 0 1)
    (fun _ => (none, [])) [] [rowC3] decC3 hmem
  exact ⟨hmem, by decide, h.2 (by decide)⟩

/-- C4 counterexample: for a concrete at-risk reading whose camera open
fails (the first frame read yields nothing), the run records no Decision at
all and aborts, contradicting the claim that a Decision with the risk flag
and an absent camera sample is still produced. -/
theorem camera_failure_aborts_counterexample :
    (monitorLoop (mkRat 60 1) (fun _ => mkRat 0 1) (fun _ => (none, [])) [] [rowC4]).decisions =
        [] ∧
      (monitorLoop (mkRat 60 1) (fun _ => mkRat 0 1) (fun _ => (none, [])) [] [rowC4]).exit =
        LoopExit.aborted 0 CamErr.deviceUnavailable :=
  ⟨by decide, by decide⟩

/-- C4 amended: when the camera cannot deliver a first frame while sampling
for an at-risk reading, check_camera_flags raises and the loop, which has
no handler, aborts at that reading: no Decision is recorded for it, the
alert is suppressed, and no later reading is processed. -/
theorem camera_failure_aborts (maxd : ℚ) (elapsed : Nat → ℚ) (camEnv : Nat → CamInput)
    (dets : List Detector) (row : Row) (rest : List Row) (s : List CamRead)
    (hT : ¬maxd < elapsed 0) (hR : RiskEvaluation row = true) (hcam : camEnv 0 = (none, s)) :
    monitorLoop maxd elapsed camEnv dets (row :: rest) =
      ⟨[], [0], LoopExit.aborted 0 CamErr.deviceUnavailable⟩ := by
  rw [monitorLoop]
  simp only [monitorLoopGo]
  rw [if_neg hT, if_pos hR, hcam]
  rfl

/-- Witness for C4 amended: the hypotheses hold at a concrete run and the
conclusion follows by the theorem. -/
theorem camera_failure_aborts_witness :
    (¬(mkRat 60 1 : ℚ) < mkRat 0 1) ∧ RiskEvaluation rowC4 = true ∧
      monitorLoop (mkRat 60 1) (fun _ => mkRat 0 1) (fun _ => (none, [])) [] [rowC4] =
        ⟨[], [0], LoopExit.aborted 0 CamErr.deviceUnavailable⟩ :=
  ⟨by decide, by decide,
    camera_failure_aborts (mkRat 60 1) (fun _ => mkRat 0 1) (fun _ => (none, []))
      [] rowC4 [] [] (by decide) (by decide) rfl⟩

/-- C5 counterexample: at a concrete two-reading stream whose first reading
raises inside camera sampling, the loop records no Decision and stops: the
exception is not caught at the loop boundary and the second reading is
never processed, contradicting the claim that the loop continues. -/
theorem exception_not_caught_counterexample :
    (monitorLoop (mkRat 60 1) (fun _ => mkRat 0 1) (fun _ => (none, []))
          [] [rowC5a, rowC5b]).decisions = [] ∧
      (monitorLoop (mkRat 60 1) (fun _ => mkRat 0 1) (fun _ => (none, []))
          [] [rowC5a, rowC5b]).exit = LoopExit.aborted 0 CamErr.deviceUnavailable :=
  ⟨by decide, by decide⟩

/-- C5 amended: an exception raised while processing the reading at index j
propagates out of the loop: exactly the readings before j have Decisions,
and the readings from j on, which exist in the stream, are left
unprocessed; the run aborts instead of continuing. -/
theorem exception_aborts_run (maxd : ℚ) (elapsed : Nat → ℚ) (camEnv : Nat → CamInput)
    (dets : List Detector) (rows : List Row) (j : Nat) (e : CamErr)
    (h : (monitorLoop maxd elapsed camEnv dets rows).exit = LoopExit.aborted j e) :
    (monitorLoop maxd elapsed camEnv dets rows).decisions.length = j ∧ j < rows.length := by
  obtain ⟨nd, nt, hdec, htr, inv⟩ := monitorLoop_spec maxd elapsed camEnv dets rows
  have hx : (monitorLoopGo maxd elapsed camEnv dets 0 0 [] [] rows).exit =
      LoopExit.aborted j e := h
  obtain ⟨h1, h2⟩ := inv.abortedAt j e hx
  rw [hdec]
  omega

/-- Witness for C5 amended: at a concrete aborted run the decision count is
the aborted index and that index lies inside the stream. -/
theorem exception_aborts_run_witness :
    (monitorLoop (mkRat 60 1) (fun _ => mkRat 0 1) (fun _ => (none, []))
          [] [rowC5a, rowC5b]).exit = LoopExit.aborted 0 CamErr.deviceUnavailable ∧
      (monitorLoop (mkRat 60 1) (fun _ => mkRat 0 1) (fun _ => (none, []))
          [] [rowC5a, rowC5b]).decisions.length = 0 ∧
      0 < ([rowC5a, rowC5b] : List Row).length := by
  have hx : (monitorLoop (mkRat 60 1) (fun _ => mkRat 0 1) (fun _ => (none, []))
      [] [rowC5a, rowC5b]).exit = LoopExit.aborted 0 CamErr.deviceUnavailable := by decide
  have h := exception_aborts_run (mkRat 60 1) (fun _ => mkRat 0 1) (fun _ => (none, []))
    [] [rowC5a, rowC5b] 0 CamErr.deviceUnavailable hx
  exact ⟨hx, h.1, h.2⟩

/-- C7: the loop never produces more Decisions than readings; the decided
rows are exactly an initial segment of the stream in order, so no reading
that passes the deadline check is skipped and readings beyond the segment
are left undecided; a completed run decides every reading; and with a zero
budget and a clock that has advanced at the first check, the run times out
with zero Decisions recorded. -/
theorem loop_prefix_and_timeout (maxd : ℚ) (elapsed : Nat → ℚ) (camEnv : Nat → CamInput)
    (dets : List Detector) (rows : List Row) :
    (∃ n, n ≤ rows.length ∧
        (monitorLoop maxd elapsed camEnv dets rows).decisions.map Decision.row = rows.take n ∧
          (monitorLoop maxd elapsed camEnv dets rows).decisions.length = n) ∧
      (monitorLoop maxd elapsed camEnv dets rows).decisions.length ≤ rows.length ∧
      ((monitorLoop maxd elapsed camEnv dets rows).exit = LoopExit.completed →
        (monitorLoop maxd elapsed camEnv dets rows).decisions.length = rows.length) ∧
      (maxd = 0 → 0 < elapsed 0 → ∀ row rest, rows = row :: rest →
        monitorLoop maxd elapsed camEnv dets rows = ⟨[], [], LoopExit.timedOut⟩) := by
  obtain ⟨nd, nt, hdec, htr, inv⟩ := monitorLoop_spec maxd elapsed camEnv dets rows
  refine ⟨⟨nd.length, inv.lenLe, by rw [hdec]; exact inv.rowsEq, by rw [hdec]⟩,
    by rw [hdec]; exact inv.lenLe, ?_, ?_⟩
  · intro hc
    rw [hdec]
    exact inv.completedAll hc
  · intro hm hpos row rest hrows
    subst hrows
    subst hm
    rw [monitorLoop]
    simp only [monitorLoopGo]
    rw [if_pos hpos]

/-- Witness for C7: with a zero budget and a clock already past zero, a
concrete one-reading run times out with no Decisions. -/
theorem loop_prefix_and_timeout_witness :
    (0 : ℚ) < 1 ∧
      monitorLoop (0 : ℚ) (fun _ => (1 : ℚ)) (fun _ => (none, [])) [] [rowC7] =
        ⟨[], [], LoopExit.timedOut⟩ :=
  ⟨zero_lt_one,
    (loop_prefix_and_timeout (0 : ℚ) (fun _ => (1 : ℚ)) (fun _ => (none, []))
      [] [rowC7]).2.2.2 rfl zero_lt_one rowC7 [] rfl⟩

/-- C8: the camera trace of a run never mentions a reading twice, each
recorded Decision shows exactly one camera invocation when its risk flag is
true and none when it is false, and every invoked index belongs to a
reading of the stream whose risk rule is true, so the camera is never
consulted for a normal reading. -/
theorem camera_invocation_discipline (maxd : ℚ) (elapsed : Nat → ℚ) (camEnv : Nat → CamInput)
    (dets : List Detector) (rows : List Row) :
    (monitorLoop maxd elapsed camEnv dets rows).camTrace.Nodup ∧
      (∀ j, (monitorLoop maxd elapsed camEnv dets rows).camTrace.count j ≤ 1) ∧
      (∀ d ∈ (monitorLoop maxd elapsed camEnv dets rows).decisions,
        (monitorLoop maxd elapsed camEnv dets rows).camTrace.count d.idx =
          if d.risk_flag then 1 else 0) ∧
      (∀ j ∈ (monitorLoop maxd elapsed camEnv dets rows).camTrace,
        j < rows.length ∧ RiskEvaluation (rows.getD j row0) = true) := by
  obtain ⟨nd, nt, hdec, htr, inv⟩ := monitorLoop_spec maxd elapsed camEnv dets rows
  refine ⟨by rw [htr]; exact inv.trNodup,
    fun j => by rw [htr]; exact List.nodup_iff_count_le_one.mp inv.trNodup j, ?_, ?_⟩
  · intro d hd
    rw [hdec] at hd
    rw [htr]
    exact inv.countOk d hd
  · intro j hj
    rw [htr] at hj
    have := inv.trRisk j hj
    simpa using this

/-- Witness for C8: at a concrete at-risk reading with a working camera the
trace holds index zero, and the theorem places that index inside the stream
at a reading whose risk rule is true. -/
theorem camera_invocation_discipline_witness :
    0 ∈ runC8.camTrace ∧ 0 < ([rowC8] : List Row).length ∧
      RiskEvaluation (([rowC8] : List Row).getD 0 row0) = true := by
  have hmem : 0 ∈ runC8.camTrace := by decide
  have h := (camera_invocation_discipline (mkRat 60 1) (fun _ => mkRat 0 1)
    (fun _ => (some [], [])) [] [rowC8]).2.2.2 0 hmem
  exact ⟨hmem, h.1, h.2⟩

/-- C9: the alert composer is a function of the reading alone; every
fixed-precision field it renders carries exactly prec digit characters
after its decimal point; every message ends with the fixed call-to-action
line; and at the notebook row with heart rate 82.615... and risk score
-0.00323... the message contains 82.6 and -0.003. -/
theorem alert_composer_formatting :
    (∀ (prec : Nat) (q : ℚ), ∃ s t : String,
        fmtFixed prec q = s ++ "." ++ t ∧ t.length = prec ∧
          t.data.all Char.isDigit = true) ∧
      (∀ row : Row, ∃ s : String,
        generate_alert_message row = s ++ "Please check immediately!") ∧
      (∃ a b : String, generate_alert_message rowC9 = a ++ "82.6" ++ b) ∧
      (∃ a b : String, generate_alert_message rowC9 = a ++ "-0.003" ++ b) := by
  refine ⟨?_, ?_, ?_, ?_⟩
  · intro prec q
    refine ⟨(if roundHalfEvenScaled q (10 ^ prec) < 0 then "-" else "") ++
      toString ((roundHalfEvenScaled q (10 ^ prec)).natAbs / 10 ^ prec),
      String.mk (fracDigits prec ((roundHalfEvenScaled q (10 ^ prec)).natAbs % 10 ^ prec)),
      rfl, fracDigits_length _ _, fracDigits_all_digits _ _⟩
  · intro row
    refine ⟨("⚠️ Emergency Alert! Measurements:\n- Heart Rate: " ++ fmtFixed 1 row.heart_rate ++
      " bpm\n- O₂ Saturation: " ++ fmtFixed 1 row.oxygen_saturation ++
      "%\n- Glucose: " ++ fmtFixed 1 row.glucose ++
      " mg/dL\nRisk Score: " ++ fmtFixed 3 row.risk_score) ++ "\n", ?_⟩
    rw [generate_alert_message,
      show ("\nPlease check immediately!" : String) = "\n" ++ "Please check immediately!"
        from by decide,
      ← String.append_assoc]
  · exact ⟨"⚠️ Emergency Alert! Measurements:\n- Heart Rate: ",
      " bpm\n- O₂ Saturation: 99.7%\n- Glucose: 105.4 mg/dL\nRisk Score: -0.003\nPlease check immediately!",
      by decide⟩
  · exact ⟨"⚠️ Emergency Alert! Measurements:\n- Heart Rate: 82.6 bpm\n- O₂ Saturation: 99.7%\n- Glucose: 105.4 mg/dL\nRisk Score: ",
      "\nPlease check immediately!", by decide⟩

/-- C10: with a non-positive sampling duration and a clock that never runs
backwards, a successfully opened camera performs no sampling iteration and
reports neither motion nor a face. -/
theorem degenerate_window_no_flags (duration thr : ℚ) (cascades : List Detector)
    (g0 : Gray) (stream : List CamRead)
    (hdur : duration ≤ 0) (hstream : ∀ p ∈ stream, 0 ≤ p.1) :
    check_camera_flags duration thr cascades (some g0) stream = .ok (false, false) := by
  cases stream with
  | nil => rfl
  | cons p rest =>
    obtain ⟨t, fr⟩ := p
    have h0 : (0 : ℚ) ≤ t := hstream (t, fr) (List.mem_cons_self _ _)
    have ht : ¬t < duration := fun hlt =>
      absurd (lt_of_lt_of_le hlt hdur) (not_lt.mpr h0)
    show camSampleLoop duration thr cascades g0 false false ((t, fr) :: rest) = .ok (false, false)
    simp only [camSampleLoop]
    rw [if_neg ht]

/-- Witness for C10: a zero duration, a working device and a read observed
at a positive elapsed time yield no motion and no face. -/
theorem degenerate_window_no_flags_witness :
    (0 : ℚ) ≤ 0 ∧ (0 : ℚ) ≤ mkRat 1 1 ∧
      check_camera_flags (0 : ℚ) (mkRat 10 1) [] (some []) [(mkRat 1 1, some [])] =
        .ok (false, false) :=
  ⟨le_refl 0, by decide,
    degenerate_window_no_flags (0 : ℚ) (mkRat 10 1) [] [] [(mkRat 1 1, some [])]
      (le_refl 0) (by intro p hp; simp only [List.mem_singleton] at hp; subst hp; decide)⟩

end EmergencyMonitor
